import Mathlib

/-!
Verification of the ANSI-to-Windows-console translation layer in
`pkg/term/console_windows.go`.

The Go code is shallowly embedded: Go `WORD` (uint16) attribute bit-fields
become `Nat` (kept below 2^16), Go `SHORT`/`int16` coordinate arithmetic
becomes `Int` with explicit two's-complement wrapping (`int16wrap`), and Go
`uint32` results become `Int` reduced modulo 2^32.  A Go function that can
`panic` is embedded with result type `GoResult`; Go `(value, error)` pairs
become products with `Option Err`.  Native Win32 calls are abstracted by a
`ConsoleOracle` supplying each syscall's raw `(r, lasterr)` outcome, and the
embedding records the native calls it issues as a `List NativeCall` trace.
-/

namespace ConsoleWindows

/-- Two's-complement wrap of an integer into the `int16` range, modelling Go
`int16` arithmetic overflow. -/
def int16wrap (x : Int) : Int := (x + 32768) % 65536 - 32768

/-- Conversion of an `int16`-ranged integer to Go `uint32` (sign extension then
reinterpretation), and also reduction of `uint32` arithmetic mod 2^32. -/
def uint32wrap (x : Int) : Int := x % 4294967296

/-- Go `a &^ m` (AND NOT) on 16-bit `WORD` values. -/
def andNot (a m : Nat) : Nat := a &&& (65535 ^^^ m)

-- Character-attribute constants from the source file.
def FOREGROUND_BLUE : Nat := 1
def FOREGROUND_GREEN : Nat := 2
def FOREGROUND_RED : Nat := 4
def FOREGROUND_INTENSITY : Nat := 8
def FOREGROUND_MASK_SET : Nat := 0x000F
def FOREGROUND_MASK_UNSET : Nat := 0xFFF0
def BACKGROUND_BLUE : Nat := 16
def BACKGROUND_GREEN : Nat := 32
def BACKGROUND_RED : Nat := 64
def BACKGROUND_INTENSITY : Nat := 128
def BACKGROUND_MASK_SET : Nat := 0x00F0
def BACKGROUND_MASK_UNSET : Nat := 0xFF0F
def COMMON_LVB_UNDERSCORE : Nat := 0x8000

/-- Outcome of a Go computation that may `panic`. -/
inductive GoResult (α : Type) : Type where
  | ok : α → GoResult α
  | panicked : GoResult α
deriving DecidableEq, Repr

/-- Errors surfaced by the translation layer: an OS error carrying a code, the
generic `syscall.EINVAL` fallback, or a numeric-parameter parse error. -/
inductive Err : Type where
  | os : Nat → Err
  | einval : Err
  | parse : Err
deriving DecidableEq, Repr

/-- `COORD`: a pair of `SHORT` (int16) screen coordinates. -/
structure Coord where
  x : Int
  y : Int
deriving DecidableEq, Repr

/-- `CONSOLE_SCREEN_BUFFER_INFO` (the `Window` rectangle field is omitted: the
embedded core never reads it). -/
structure ScreenBufferInfo where
  Size : Coord
  CursorPosition : Coord
  Attributes : Nat
  MaximumWindowSize : Coord
deriving DecidableEq, Repr

/-- `getWindowsTextAttributeForAnsiValue`: maps one SGR value plus the current
attribute `WORD` to the new `WORD`.  The Go function returns `(flag, nil)` on
every non-default path and `panic`s ("Should not reach here") on the `default`
branch; the dead possibility of a non-nil error in the `ok` payload is kept to
mirror the source signature `(WORD, error)`. -/
def getWindowsTextAttributeForAnsiValue (originalFlag : Nat) (ansiValue : Int) :
    GoResult (Nat × Option Err) :=
  let flag := if originalFlag = 0 then FOREGROUND_MASK_SET else originalFlag
  match ansiValue with
  | 0 => -- ANSI_ATTR_RESET
    .ok (andNot (andNot flag COMMON_LVB_UNDERSCORE) BACKGROUND_INTENSITY ||| FOREGROUND_INTENSITY,
         none)
  | 8 => -- ANSI_ATTR_INVISIBLE (empty case body in the source)
    .ok (flag, none)
  | 4 => -- ANSI_ATTR_UNDERLINE
    .ok (flag ||| COMMON_LVB_UNDERSCORE, none)
  | 5 => -- ANSI_ATTR_BLINK
    .ok (flag ||| BACKGROUND_INTENSITY, none)
  | 24 => -- ANSI_ATTR_UNDERLINE_OFF
    .ok (andNot flag COMMON_LVB_UNDERSCORE, none)
  | 25 => -- ANSI_ATTR_BLINK_OFF
    .ok (andNot flag BACKGROUND_INTENSITY, none)
  | 1 => -- ANSI_ATTR_BOLD
    .ok (flag ||| FOREGROUND_INTENSITY, none)
  | 2 => -- ANSI_ATTR_DIM
    .ok (andNot flag FOREGROUND_INTENSITY, none)
  | 7 | 27 => -- ANSI_ATTR_REVERSE, ANSI_ATTR_REVERSE_OFF: swap fg and bg bits
    let foreground := flag &&& FOREGROUND_MASK_SET
    let background := flag &&& BACKGROUND_MASK_SET
    .ok ((flag &&& BACKGROUND_MASK_UNSET &&& FOREGROUND_MASK_UNSET) |||
         (foreground <<< 4) ||| (background >>> 4), none)
  | 39 => -- ANSI_FOREGROUND_DEFAULT
    .ok (flag ||| FOREGROUND_MASK_SET, none)
  | 30 => -- ANSI_FOREGROUND_BLACK (note: XOR in the source, not mask-and-set)
    .ok (flag ^^^ (FOREGROUND_RED ||| FOREGROUND_GREEN ||| FOREGROUND_BLUE), none)
  | 31 => .ok ((flag &&& FOREGROUND_MASK_UNSET) ||| FOREGROUND_RED, none)
  | 32 => .ok ((flag &&& FOREGROUND_MASK_UNSET) ||| FOREGROUND_GREEN, none)
  | 33 => .ok ((flag &&& FOREGROUND_MASK_UNSET) ||| FOREGROUND_RED ||| FOREGROUND_GREEN, none)
  | 34 => .ok ((flag &&& FOREGROUND_MASK_UNSET) ||| FOREGROUND_BLUE, none)
  | 35 => .ok ((flag &&& FOREGROUND_MASK_UNSET) ||| FOREGROUND_RED ||| FOREGROUND_BLUE, none)
  | 36 => .ok ((flag &&& FOREGROUND_MASK_UNSET) ||| FOREGROUND_GREEN ||| FOREGROUND_BLUE, none)
  | 37 => .ok ((flag &&& FOREGROUND_MASK_UNSET) ||| FOREGROUND_RED ||| FOREGROUND_GREEN |||
               FOREGROUND_BLUE, none)
  | 49 => -- ANSI_BACKGROUND_DEFAULT: black with no intensity
    .ok (flag &&& BACKGROUND_MASK_UNSET, none)
  | 40 => .ok (flag &&& BACKGROUND_MASK_UNSET, none)
  | 41 => .ok ((flag &&& BACKGROUND_MASK_UNSET) ||| BACKGROUND_RED, none)
  | 42 => .ok ((flag &&& BACKGROUND_MASK_UNSET) ||| BACKGROUND_GREEN, none)
  | 43 => .ok ((flag &&& BACKGROUND_MASK_UNSET) ||| BACKGROUND_RED ||| BACKGROUND_GREEN, none)
  | 44 => .ok ((flag &&& BACKGROUND_MASK_UNSET) ||| BACKGROUND_BLUE, none)
  | 45 => .ok ((flag &&& BACKGROUND_MASK_UNSET) ||| BACKGROUND_RED ||| BACKGROUND_BLUE, none)
  | 46 => .ok ((flag &&& BACKGROUND_MASK_UNSET) ||| BACKGROUND_GREEN ||| BACKGROUND_BLUE, none)
  | 47 => .ok ((flag &&& BACKGROUND_MASK_UNSET) ||| BACKGROUND_RED ||| BACKGROUND_GREEN |||
               BACKGROUND_BLUE, none)
  | _ => -- default: panic("Should not reach here")
    .panicked

/-- `getNumberOfChars`: the number of fill characters needed to blank the range
`fromCoord..toCoord` in a buffer of size `screenSize`.  Subtractions happen in
`int16`, conversions and additions in `uint32`, both wrapped exactly as in Go. -/
def getNumberOfChars (fromCoord toCoord screenSize : Coord) : Int :=
  if fromCoord.x < 0 ∨ fromCoord.y < 0 ∨ toCoord.x < 0 ∨ toCoord.y < 0 then 0
  else if fromCoord.x ≥ screenSize.x ∨ fromCoord.y ≥ screenSize.y ∨
          toCoord.x ≥ screenSize.x ∨ toCoord.y ≥ screenSize.y then 0
  else if fromCoord.y > toCoord.y then 0
  else if fromCoord.y = toCoord.y then
    uint32wrap (uint32wrap (int16wrap (toCoord.x - fromCoord.x)) + 1)
  else if fromCoord.y < toCoord.y then
    -- the source binds `retValue` and `linesBetween` to locals; inlined here
    if int16wrap (toCoord.y - fromCoord.y - 1) > 0 then
      uint32wrap (uint32wrap (uint32wrap (int16wrap (screenSize.x - fromCoord.x)) +
                              uint32wrap toCoord.x + 1) +
                  uint32wrap (int16wrap (int16wrap (toCoord.y - fromCoord.y - 1) * screenSize.x)))
    else
      uint32wrap (uint32wrap (int16wrap (screenSize.x - fromCoord.x)) +
                  uint32wrap toCoord.x + 1)
  else 0

/-- Model of Go `strconv.ParseInt(s, 10, 16)`: optional sign, decimal digits,
clamped to the `int16` range on range error; the `Bool` is `true` iff Go
returns a nil error.  On any error Go returns `0` (syntax) or the clamped
bound (range). -/
def parseDigitsAux : List Char → Nat → Option Nat
  | [], acc => some acc
  | c :: rest, acc =>
    if '0' ≤ c ∧ c ≤ '9' then parseDigitsAux rest (acc * 10 + (c.toNat - 48))
    else none

def goParseIntMag (digits : List Char) (negative : Bool) : Int × Bool :=
  match digits with
  | [] => (0, false)
  | _ =>
    match parseDigitsAux digits 0 with
    | none => (0, false)
    | some v =>
      if negative then
        if (v : Int) > 32768 then (-32768, false) else (-(v : Int), true)
      else
        if (v : Int) > 32767 then (32767, false) else ((v : Int), true)

def goParseInt : List Char → Int × Bool
  | [] => (0, false)
  | '+' :: rest => goParseIntMag rest false
  | '-' :: rest => goParseIntMag rest true
  | s => goParseIntMag s false

/-- A parsed CSI command: final command letter(s) and the `;`-separated
parameter strings, in left-to-right order. -/
structure ParsedCommand where
  Command : List Char
  Parameters : List (List Char)
deriving DecidableEq, Repr

/-- Split a parameter body on `;` separators. -/
def splitParams : List Char → List (List Char)
  | [] => [[]]
  | ';' :: rest => [] :: splitParams rest
  | c :: rest =>
    match splitParams rest with
    | p :: ps => (c :: p) :: ps
    | [] => [[c]]

/-- Modelled from the spec: `parseAnsiCommand` is code of this repository that
is not under `src/` (only its caller `HandleOutputCommand` is).  Per §4.1 of
the spec, given the complete byte sequence of one CSI command it yields the
final command letter and the `;`-separated parameters kept as strings; the
parameter list may be empty. -/
def parseAnsiCommand (cmd : List Char) : ParsedCommand :=
  match cmd.reverse with
  | [] => ⟨[], []⟩
  | c :: restRev =>
    ⟨[c], if restRev = [] then [] else splitParams restRev.reverse⟩

/-- `getParam(i)`: the i-th parameter, or the empty string when absent. -/
def ParsedCommand.getParam (p : ParsedCommand) (i : Nat) : List Char :=
  p.Parameters.getD i []

/-- Modelled from the spec: `parseInt16OrDefault` is code of this repository
that is not under `src/` (only its call sites are).  Per §3/§4.1/§7(b) of the
spec, an absent (empty) parameter yields the per-command default with no
error, and a malformed parameter yields the default together with a parse
error which cursor-move call sites propagate. -/
def parseInt16OrDefault (s : List Char) (defaultValue : Int) : Int × Option Err :=
  if s = [] then (defaultValue, none)
  else
    match goParseInt s with
    | (v, true) => (v, none)
    | (_, false) => (defaultValue, some .parse)

/-- The native calls the dispatcher can issue, recorded as a trace. -/
inductive NativeCall : Type where
  | getScreenBufferInfo : NativeCall
  | setCursorPosition : Coord → NativeCall
  | setTextAttribute : Nat → NativeCall
  | fillOutputCharacter : Char → Int → Coord → NativeCall
  | getCursorInfo : NativeCall
  | setCursorInfo : Int → NativeCall
deriving DecidableEq, Repr

/-- The console surface: for each Win32 proc, the raw `(r, lasterr)` outcome
the `.Call` would produce (`r = 0` means failure, `lasterr` the OS error if
any), plus the snapshot written on a successful
`GetConsoleScreenBufferInfo`. -/
structure ConsoleOracle where
  getScreenBufferInfoCall : Nat × Option Nat
  screenInfo : ScreenBufferInfo
  setCursorPositionCall : Nat × Option Nat
  setTextAttributeCall : Nat × Option Nat
  fillCall : Nat × Option Nat
  getCursorInfoCall : Nat × Option Nat
  setCursorInfoCall : Nat × Option Nat
deriving DecidableEq, Repr

/-- The `r == 0` wrapper idiom shared by every syscall wrapper in the source:
surface the OS error, or `syscall.EINVAL` if the OS reported none. -/
def errOf (e : Option Nat) : Err :=
  match e with
  | some c => .os c
  | none => .einval

/-- `GetConsoleScreenBufferInfo`: fetch a snapshot or fail. -/
def GetConsoleScreenBufferInfo (o : ConsoleOracle) :
    Except Err ScreenBufferInfo × List NativeCall :=
  (if (o.getScreenBufferInfoCall).1 = 0 then .error (errOf (o.getScreenBufferInfoCall).2)
   else .ok o.screenInfo,
   [.getScreenBufferInfo])

/-- `setConsoleTextAttribute`. -/
def setConsoleTextAttribute (o : ConsoleOracle) (attr : Nat) :
    (Bool × Option Err) × List NativeCall :=
  (if (o.setTextAttributeCall).1 = 0 then (false, some (errOf (o.setTextAttributeCall).2))
   else (true, none),
   [.setTextAttribute attr])

/-- `fillConsoleOutputCharacter`. -/
def fillConsoleOutputCharacter (o : ConsoleOracle) (fillChar : Char) (length : Int)
    (writeCord : Coord) : (Bool × Option Err) × List NativeCall :=
  (if (o.fillCall).1 = 0 then (false, some (errOf (o.fillCall).2))
   else (true, none),
   [.fillOutputCharacter fillChar length writeCord])

/-- `clearDisplayRange`: fill `getNumberOfChars` cells starting at `fromCoord`
when the count is positive; `(true, nil)` without any call otherwise. -/
def clearDisplayRange (o : ConsoleOracle) (fillChar : Char) (fromCoord toCoord windowSize : Coord) :
    (Bool × Option Err) × List NativeCall :=
  -- the source binds `totalChars` to a local; inlined here
  if getNumberOfChars fromCoord toCoord windowSize > 0 then
    match fillConsoleOutputCharacter o fillChar (getNumberOfChars fromCoord toCoord windowSize)
        fromCoord with
    | ((false, some e), tr) => ((false, some e), tr)
    | ((false, none), tr) => ((false, some .einval), tr)
    | ((true, _), tr) => ((true, none), tr)
  else ((true, none), [])

/-- The target coordinate resolved by `setConsoleCursorPosition` (the local
`position` of the source): relative moves add to the freshly fetched cursor
position in `int16` arithmetic. -/
def cursorTarget (isRelative : Bool) (column line : Int) (info : ScreenBufferInfo) : Coord :=
  if isRelative then
    ⟨int16wrap (info.CursorPosition.x + column), int16wrap (info.CursorPosition.y + line)⟩
  else ⟨column, line⟩

/-- `setConsoleCursorPosition`: fetches a fresh snapshot, resolves relative
moves against it, then issues the positioning call. -/
def setConsoleCursorPosition (o : ConsoleOracle) (isRelative : Bool) (column line : Int) :
    (Bool × Option Err) × List NativeCall :=
  match GetConsoleScreenBufferInfo o with
  | (.error e, tr) => ((false, some e), tr)
  | (.ok screenBufferInfo, tr) =>
    if (o.setCursorPositionCall).1 = 0 then
      ((false, some (errOf (o.setCursorPositionCall).2)),
       tr ++ [.setCursorPosition (cursorTarget isRelative column line screenBufferInfo)])
    else
      ((true, none),
       tr ++ [.setCursorPosition (cursorTarget isRelative column line screenBufferInfo)])

/-- `SetCursorVisible`: get the cursor info, then set its visibility. -/
def SetCursorVisible (o : ConsoleOracle) (isVisible : Int) :
    (Bool × Option Err) × List NativeCall :=
  if (o.getCursorInfoCall).1 = 0 then
    ((false, some (errOf (o.getCursorInfoCall).2)), [.getCursorInfo])
  else if (o.setCursorInfoCall).1 = 0 then
    ((false, some (errOf (o.setCursorInfoCall).2)), [.getCursorInfo, .setCursorInfo isVisible])
  else ((true, none), [.getCursorInfo, .setCursorInfo isVisible])

/-- The `m`-command parameter loop: fold the parameters left-to-right through
the attribute translator.  Each step parses the parameter with
`strconv.ParseInt(e, 10, 16)` ignoring the parse error (Go leaves `value = 0`
on a syntax error), and the dispatcher returns the translator's error, were
one ever produced. -/
def sgrFold (flag : Nat) : List (List Char) → GoResult (Nat × Option Err)
  | [] => .ok (flag, none)
  | e :: rest =>
    let value := (goParseInt e).1
    match getWindowsTextAttributeForAnsiValue flag value with
    | .panicked => .panicked
    | .ok (f, some err) => .ok (f, some err)
    | .ok (f, none) => sgrFold f rest

/-- The `J` (erase-in-display) switch: `(start, end, cursor)` per parameter
value; the missing `default` case leaves the zero-initialized `COORD`s. -/
def eraseDisplayRanges (value : Int) (info : ScreenBufferInfo) : Coord × Coord × Coord :=
  match value with
  | 0 => (info.CursorPosition,
          ⟨int16wrap (info.MaximumWindowSize.x - 1), int16wrap (info.MaximumWindowSize.y - 1)⟩,
          info.CursorPosition)
  | 1 => (⟨0, 0⟩, info.CursorPosition, info.CursorPosition)
  | 2 => (⟨0, 0⟩,
          ⟨int16wrap (info.MaximumWindowSize.x - 1), int16wrap (info.MaximumWindowSize.y - 1)⟩,
          ⟨0, 0⟩)
  | _ => (⟨0, 0⟩, ⟨0, 0⟩, ⟨0, 0⟩)

/-- The `K` (erase-in-line) switch: `(start, end, cursor)` per parameter value.
Note the `2` case reads the row from `MaximumWindowSize.Y - 1`, not from the
cursor's current row. -/
def eraseLineRanges (value : Int) (info : ScreenBufferInfo) : Coord × Coord × Coord :=
  match value with
  | 0 => (info.CursorPosition,
          ⟨int16wrap (info.MaximumWindowSize.x - 1), info.CursorPosition.y⟩,
          info.CursorPosition)
  | 1 => (⟨0, info.CursorPosition.y⟩, info.CursorPosition, info.CursorPosition)
  | 2 => (⟨0, int16wrap (info.MaximumWindowSize.y - 1)⟩,
          ⟨int16wrap (info.MaximumWindowSize.x - 1), int16wrap (info.MaximumWindowSize.y - 1)⟩,
          ⟨0, int16wrap (info.MaximumWindowSize.y - 1)⟩)
  | _ => (⟨0, 0⟩, ⟨0, 0⟩, ⟨0, 0⟩)

/-- The `m` branch body: fold the SGR parameters, then apply the resulting
attribute `WORD` in one native call. -/
def sgrBranch (o : ConsoleOracle) (params : List (List Char)) (len : Nat) :
    GoResult (Nat × Option Err × List NativeCall) :=
  match sgrFold 0 params with
  | .panicked => .panicked
  | .ok (_, some err) => .ok (len, some err, [])
  | .ok (flag, none) =>
    if ((setConsoleTextAttribute o flag).1).1 = false then
      .ok (len, ((setConsoleTextAttribute o flag).1).2, (setConsoleTextAttribute o flag).2)
    else .ok (len, none, (setConsoleTextAttribute o flag).2)

/-- Outcome wrapper shared by every cursor-move branch: issue
`setConsoleCursorPosition` and propagate its failure. -/
def cursorMoveBranch (o : ConsoleOracle) (isRelative : Bool) (column line : Int) (len : Nat) :
    GoResult (Nat × Option Err × List NativeCall) :=
  if ((setConsoleCursorPosition o isRelative column line).1).1 = false then
    .ok (len, ((setConsoleCursorPosition o isRelative column line).1).2,
         (setConsoleCursorPosition o isRelative column line).2)
  else .ok (len, none, (setConsoleCursorPosition o isRelative column line).2)

/-- The `H`/`f` branch body: 1-based `(line, column)` parameters, default `1`,
parse errors propagated, converted to 0-based for the native call. -/
def hfBranch (o : ConsoleOracle) (pc : ParsedCommand) (len : Nat) :
    GoResult (Nat × Option Err × List NativeCall) :=
  if (parseInt16OrDefault (pc.getParam 0) 1).2 = none then
    if (parseInt16OrDefault (pc.getParam 1) 1).2 = none then
      cursorMoveBranch o false (int16wrap ((parseInt16OrDefault (pc.getParam 1) 1).1 - 1))
        (int16wrap ((parseInt16OrDefault (pc.getParam 0) 1).1 - 1)) len
    else .ok (len, (parseInt16OrDefault (pc.getParam 1) 1).2, [])
  else .ok (len, (parseInt16OrDefault (pc.getParam 0) 1).2, [])

/-- The `A` branch body: cursor up by `value` (default 1). -/
def aBranch (o : ConsoleOracle) (pc : ParsedCommand) (len : Nat) :
    GoResult (Nat × Option Err × List NativeCall) :=
  if (parseInt16OrDefault (pc.getParam 0) 1).2 = none then
    cursorMoveBranch o true 0 (int16wrap (-1 * (parseInt16OrDefault (pc.getParam 0) 1).1)) len
  else .ok (len, (parseInt16OrDefault (pc.getParam 0) 1).2, [])

/-- The `B` branch body: cursor down by `value` (default 1). -/
def bBranch (o : ConsoleOracle) (pc : ParsedCommand) (len : Nat) :
    GoResult (Nat × Option Err × List NativeCall) :=
  if (parseInt16OrDefault (pc.getParam 0) 1).2 = none then
    cursorMoveBranch o true 0 (parseInt16OrDefault (pc.getParam 0) 1).1 len
  else .ok (len, (parseInt16OrDefault (pc.getParam 0) 1).2, [])

/-- The `C` branch body: cursor forward by `value` (default 1). -/
def cBranch (o : ConsoleOracle) (pc : ParsedCommand) (len : Nat) :
    GoResult (Nat × Option Err × List NativeCall) :=
  if (parseInt16OrDefault (pc.getParam 0) 1).2 = none then
    cursorMoveBranch o true (parseInt16OrDefault (pc.getParam 0) 1).1 0 len
  else .ok (len, (parseInt16OrDefault (pc.getParam 0) 1).2, [])

/-- The `D` branch body: cursor back by `value` (default 1). -/
def dBranch (o : ConsoleOracle) (pc : ParsedCommand) (len : Nat) :
    GoResult (Nat × Option Err × List NativeCall) :=
  if (parseInt16OrDefault (pc.getParam 0) 1).2 = none then
    cursorMoveBranch o true (int16wrap (-1 * (parseInt16OrDefault (pc.getParam 0) 1).1)) 0 len
  else .ok (len, (parseInt16OrDefault (pc.getParam 0) 1).2, [])

/-- Shared tail of the `J`/`K` branches: clear the computed range, then
position the cursor; a failed snapshot fetch silently skips everything. -/
def eraseApply (o : ConsoleOracle) (ranges : Coord × Coord × Coord)
    (windowSize : Coord) (tr1 : List NativeCall) (len : Nat) :
    GoResult (Nat × Option Err × List NativeCall) :=
  if ((clearDisplayRange o ' ' ranges.1 ranges.2.1 windowSize).1).1 = false then
    .ok (len, ((clearDisplayRange o ' ' ranges.1 ranges.2.1 windowSize).1).2,
         tr1 ++ (clearDisplayRange o ' ' ranges.1 ranges.2.1 windowSize).2)
  else if ((setConsoleCursorPosition o false ranges.2.2.x ranges.2.2.y).1).1 = false then
    .ok (len, ((setConsoleCursorPosition o false ranges.2.2.x ranges.2.2.y).1).2,
         tr1 ++ (clearDisplayRange o ' ' ranges.1 ranges.2.1 windowSize).2 ++
           (setConsoleCursorPosition o false ranges.2.2.x ranges.2.2.y).2)
  else
    .ok (len, none,
         tr1 ++ (clearDisplayRange o ' ' ranges.1 ranges.2.1 windowSize).2 ++
           (setConsoleCursorPosition o false ranges.2.2.x ranges.2.2.y).2)

/-- The `J` (erase-in-display) branch body: the parse error is propagated,
then the freshly fetched snapshot drives the range computation. -/
def jBranch (o : ConsoleOracle) (pc : ParsedCommand) (len : Nat) :
    GoResult (Nat × Option Err × List NativeCall) :=
  if (parseInt16OrDefault (pc.getParam 0) 0).2 = none then
    match (GetConsoleScreenBufferInfo o).1 with
    | .error _ => .ok (len, none, (GetConsoleScreenBufferInfo o).2)
    | .ok screenBufferInfo =>
      eraseApply o
        (eraseDisplayRanges (parseInt16OrDefault (pc.getParam 0) 0).1 screenBufferInfo)
        screenBufferInfo.MaximumWindowSize (GetConsoleScreenBufferInfo o).2 len
  else .ok (len, (parseInt16OrDefault (pc.getParam 0) 0).2, [])

/-- The `K` (erase-in-line) branch body: unlike `J`, the parameter parse error
is immediately shadowed by the snapshot fetch and therefore dropped. -/
def kBranch (o : ConsoleOracle) (pc : ParsedCommand) (len : Nat) :
    GoResult (Nat × Option Err × List NativeCall) :=
  match (GetConsoleScreenBufferInfo o).1 with
  | .error _ => .ok (len, none, (GetConsoleScreenBufferInfo o).2)
  | .ok screenBufferInfo =>
    eraseApply o (eraseLineRanges (parseInt16OrDefault (pc.getParam 0) 0).1 screenBufferInfo)
      screenBufferInfo.MaximumWindowSize (GetConsoleScreenBufferInfo o).2 len

/-- The `l`/`h` branch body: only the exact parameter `?25` acts, and the
result of `SetCursorVisible` is ignored (its trace is still recorded). -/
def lhBranch (o : ConsoleOracle) (pc : ParsedCommand) (isVisible : Int) (len : Nat) :
    GoResult (Nat × Option Err × List NativeCall) :=
  if pc.getParam 0 = ['?', '2', '5'] then
    .ok (len, none, (SetCursorVisible o isVisible).2)
  else .ok (len, none, [])

/-- `HandleOutputCommand`: interpret one parsed ANSI command and issue the
corresponding native calls.  The result is the Go `(n, err)` pair together
with the trace of native calls issued; `panicked` models the Go panic raised
by the attribute translator default branch.  The Go switch on the command
string is embedded as an equality chain, each case body a named definition
above. -/
def handleOutputCommand (o : ConsoleOracle) (command : List Char) :
    GoResult (Nat × Option Err × List NativeCall) :=
  if (parseAnsiCommand command).Command = ['m'] then
    sgrBranch o (parseAnsiCommand command).Parameters command.length
  else if (parseAnsiCommand command).Command = ['H'] ∨
          (parseAnsiCommand command).Command = ['f'] then
    hfBranch o (parseAnsiCommand command) command.length
  else if (parseAnsiCommand command).Command = ['A'] then
    aBranch o (parseAnsiCommand command) command.length
  else if (parseAnsiCommand command).Command = ['B'] then
    bBranch o (parseAnsiCommand command) command.length
  else if (parseAnsiCommand command).Command = ['C'] then
    cBranch o (parseAnsiCommand command) command.length
  else if (parseAnsiCommand command).Command = ['D'] then
    dBranch o (parseAnsiCommand command) command.length
  else if (parseAnsiCommand command).Command = ['J'] then
    jBranch o (parseAnsiCommand command) command.length
  else if (parseAnsiCommand command).Command = ['K'] then
    kBranch o (parseAnsiCommand command) command.length
  else if (parseAnsiCommand command).Command = ['l'] then
    lhBranch o (parseAnsiCommand command) 0 command.length
  else if (parseAnsiCommand command).Command = ['h'] then
    lhBranch o (parseAnsiCommand command) 1 command.length
  else .ok (command.length, none, [])


-- Virtual key codes and control-key-state masks from the source file.
def VK_UP : Nat := 0x26
def VK_DOWN : Nat := 0x28
def VK_RIGHT : Nat := 0x27
def VK_LEFT : Nat := 0x25
def VK_HOME : Nat := 0x24
def VK_END : Nat := 0x23
def VK_INSERT : Nat := 0x2D
def VK_DELETE : Nat := 0x2E
def LEFT_ALT_PRESSED : Nat := 0x0002
def LEFT_CTRL_PRESSED : Nat := 0x0008
def RIGHT_ALT_PRESSED : Nat := 0x0001
def RIGHT_CTRL_PRESSED : Nat := 0x0004
def SHIFT_PRESSED : Nat := 0x0010

def KEY_ESC_N : List Char := ['\x1b', 'N']

/-- `keyMapPrefix` from the source: the CSI template for each mapped virtual
key, with the `%s` modifier placeholder embedded as the function argument
(`fmt.Sprintf(template, modifier)`).  F1/F2 map to the empty template; F3–F12
and the navigation keys are as in the source table. -/
def keyMapTemplate (key : Nat) : Option (List Char → List Char) :=
  if key = VK_UP then some (fun m => '\x1b' :: '[' :: (m ++ ['A']))
  else if key = VK_DOWN then some (fun m => '\x1b' :: '[' :: (m ++ ['B']))
  else if key = VK_RIGHT then some (fun m => '\x1b' :: '[' :: (m ++ ['C']))
  else if key = VK_LEFT then some (fun m => '\x1b' :: '[' :: (m ++ ['D']))
  else if key = VK_HOME then some (fun m => '\x1b' :: '[' :: 'H' :: (m ++ ['~']))
  else if key = VK_END then some (fun m => '\x1b' :: '[' :: 'F' :: (m ++ ['~']))
  else if key = VK_INSERT then some (fun m => '\x1b' :: '[' :: '2' :: (m ++ ['~']))
  else if key = VK_DELETE then some (fun m => '\x1b' :: '[' :: '3' :: (m ++ ['~']))
  else if key = 0x70 then some (fun _ => [])  -- VK_F1
  else if key = 0x71 then some (fun _ => [])  -- VK_F2
  else if key = 0x72 then some (fun m => '\x1b' :: '[' :: '1' :: '3' :: (m ++ ['~']))
  else if key = 0x73 then some (fun m => '\x1b' :: '[' :: '1' :: '4' :: (m ++ ['~']))
  else if key = 0x74 then some (fun m => '\x1b' :: '[' :: '1' :: '5' :: (m ++ ['~']))
  else if key = 0x75 then some (fun m => '\x1b' :: '[' :: '1' :: '7' :: (m ++ ['~']))
  else if key = 0x76 then some (fun m => '\x1b' :: '[' :: '1' :: '8' :: (m ++ ['~']))
  else if key = 0x77 then some (fun m => '\x1b' :: '[' :: '1' :: '9' :: (m ++ ['~']))
  else if key = 0x78 then some (fun m => '\x1b' :: '[' :: '2' :: '0' :: (m ++ ['~']))
  else if key = 0x79 then some (fun m => '\x1b' :: '[' :: '2' :: '1' :: (m ++ ['~']))
  else if key = 0x7A then some (fun m => '\x1b' :: '[' :: '2' :: '3' :: (m ++ ['~']))
  else if key = 0x7B then some (fun m => '\x1b' :: '[' :: '2' :: '4' :: (m ++ ['~']))
  else none

/-- `getControlStateParameter`: the `;N` modifier segment, chosen by the
source's fixed priority order; empty when no modifier is held. -/
def getControlStateParameter (shift alt control meta : Bool) : List Char :=
  if shift && alt && control then [';', '8']
  else if alt && control then [';', '7']
  else if shift && control then [';', '6']
  else if control then [';', '5']
  else if shift && alt then [';', '4']
  else if alt then [';', '3']
  else if shift then [';', '2']
  else []

/-- `getControlKeys`: decode the shift/alt/control flags from the
`ControlKeyState` bitmask (left/right variants collapsed). -/
def getControlKeys (controlState : Nat) : Bool × Bool × Bool :=
  ((controlState &&& SHIFT_PRESSED) ≠ 0,
   (controlState &&& (LEFT_ALT_PRESSED ||| RIGHT_ALT_PRESSED)) ≠ 0,
   (controlState &&& (LEFT_CTRL_PRESSED ||| RIGHT_CTRL_PRESSED)) ≠ 0)

/-- `charSequenceForKeys`: look the virtual key up in the template table and
substitute the modifier segment. -/
def charSequenceForKeys (key : Nat) (controlState : Nat) : List Char :=
  match keyMapTemplate key with
  | some template =>
    let keys := getControlKeys controlState
    template (getControlStateParameter keys.1 keys.2.1 keys.2.2 false)
  | none => []

/-- `KEY_EVENT_RECORD`. -/
structure KEY_EVENT_RECORD where
  KeyDown : Int
  RepeatCount : Nat
  VirtualKeyCode : Nat
  VirtualScanCode : Nat
  UnicodeChar : Nat
  ControlKeyState : Nat
deriving DecidableEq, Repr

/-- `INPUT_RECORD`. -/
structure INPUT_RECORD where
  EventType : Nat
  KeyEvent : KEY_EVENT_RECORD
deriving DecidableEq, Repr

/-- Modelled from the spec: the `KEY_EVENT` event-type constant is defined
outside `src/`; it is the Win32 `KEY_EVENT` record type (0x0001). -/
def KEY_EVENT : Nat := 1

/-- `mapKeystokeToTerminalString`: ANSI byte sequence for one key event.  The
`if control` branch in the source has an empty body (a TODO), so
Control-held printable characters fall through to the verbatim return. -/
def mapKeystokeToTerminalString (keyEvent : KEY_EVENT_RECORD) : List Char :=
  let keys := getControlKeys keyEvent.ControlKeyState
  let alt := keys.2.1
  let control := keys.2.2
  if keyEvent.UnicodeChar = 0 then
    charSequenceForKeys keyEvent.VirtualKeyCode keyEvent.ControlKeyState
  else if ¬control ∧ alt then
    KEY_ESC_N ++ [(Char.ofNat keyEvent.UnicodeChar).toLower]
  else [Char.ofNat keyEvent.UnicodeChar]

/-- The inner write loop of `ReadChars` (`for _, e := range keyString`): each
rune is truncated to a byte and stored at `p[charIndex]`.  Writing at an index
`≥ len(p)` is the Go runtime's index-out-of-range panic.  `acc` collects the
bytes written so far in reverse order. -/
def writeKeyString : List Char → List Nat → Nat → Nat → GoResult (List Nat × Nat)
  | [], acc, charIndex, _ => .ok (acc, charIndex)
  | c :: cs, acc, charIndex, plen =>
    if charIndex < plen then
      writeKeyString cs ((c.toNat % 256) :: acc) (charIndex + 1) plen
    else .panicked

/-- One pass of the `ReadChars` event loop over the remaining records; `acc`
holds the bytes written so far in reverse.  After each iteration the source
checks `charIndex >= len(p) && charIndex > 0` and breaks. -/
def readCharsLoopAux : List INPUT_RECORD → List Nat → Nat → Nat → GoResult (List Nat × Nat)
  | [], acc, charIndex, _ => .ok (acc.reverse, charIndex)
  | input :: rest, acc, charIndex, plen =>
    let step : GoResult (List Nat × Nat) :=
      if input.EventType = KEY_EVENT ∧ input.KeyEvent.KeyDown = 1 then
        let keyString := mapKeystokeToTerminalString input.KeyEvent
        if keyString.length > 0 then writeKeyString keyString acc charIndex plen
        else .ok (acc, charIndex)
      else .ok (acc, charIndex)
    match step with
    | .panicked => .panicked
    | .ok (acc2, ci2) =>
      if ci2 ≥ plen ∧ ci2 > 0 then .ok (acc2.reverse, ci2)
      else readCharsLoopAux rest acc2 ci2 plen

/-- The event-processing loop of `ReadChars` (lines 853–870 of the source):
encode each key-down key event, write its bytes into the caller's buffer of
capacity `plen`, and break once the buffer is full — but the capacity check
only runs after a whole key string was written. -/
def readCharsLoop (records : List INPUT_RECORD) (plen : Nat) : GoResult (List Nat × Nat) :=
  readCharsLoopAux records [] 0 plen

/-! ## Concrete fixtures used by the theorems -/

/-- A concrete snapshot: 80×25 buffer and maximum window, cursor at column
10, row 5, attributes 7. -/
def stdInfo : ScreenBufferInfo := ⟨⟨80, 25⟩, ⟨10, 5⟩, 7, ⟨80, 25⟩⟩

/-- A console whose every native call succeeds, with an 80×25 buffer and the
cursor at column 10, row 5. -/
def oracleAllOk : ConsoleOracle :=
  ⟨(1, none), stdInfo, (1, none), (1, none), (1, none), (1, none), (1, none)⟩

/-- A console whose `SetConsoleCursorPosition` call fails with OS error `e`
(or no error), everything else fine. -/
def oracleCursorPosFails (e : Option Nat) : ConsoleOracle :=
  ⟨(1, none), stdInfo, (0, e), (1, none), (1, none), (1, none), (1, none)⟩

/-- A console whose `GetConsoleScreenBufferInfo` call fails with OS error 5. -/
def oracleSnapshotFails : ConsoleOracle :=
  ⟨(0, some 5), ⟨⟨80, 25⟩, ⟨10, 5⟩, 7, ⟨80, 25⟩⟩, (1, none), (1, none), (1, none),
   (1, none), (1, none)⟩

/-- A console whose `SetConsoleTextAttribute` call fails with no OS error. -/
def oracleAttrFails : ConsoleOracle :=
  ⟨(1, none), ⟨⟨80, 25⟩, ⟨10, 5⟩, 7, ⟨80, 25⟩⟩, (1, none), (0, none), (1, none),
   (1, none), (1, none)⟩

/-- A console whose fill call fails with OS error `c`, everything else fine. -/
def oracleFillFails (c : Nat) : ConsoleOracle :=
  ⟨(1, none), ⟨⟨80, 25⟩, ⟨10, 5⟩, 7, ⟨80, 25⟩⟩, (1, none), (1, none), (0, some c),
   (1, none), (1, none)⟩

/-- A key-down up-arrow event with no modifiers. -/
def upArrowKeyDown : INPUT_RECORD := ⟨KEY_EVENT, ⟨1, 1, VK_UP, 0, 0, 0⟩⟩

/-- Applying the attribute translator twice with SGR value 7 (reverse video),
threading the flag exactly as the `m`-command fold does. -/
def sgrReverseTwice (bits : Nat) : GoResult (Nat × Option Err) :=
  match getWindowsTextAttributeForAnsiValue bits 7 with
  | .ok (f, _) => getWindowsTextAttributeForAnsiValue f 7
  | .panicked => .panicked

/-- The foreground/background swap computed by the translator's reverse-video
case (its `case ANSI_ATTR_REVERSE, ANSI_ATTR_REVERSE_OFF` body). -/
def swapExpr (g : Nat) : Nat :=
  (g &&& BACKGROUND_MASK_UNSET &&& FOREGROUND_MASK_UNSET) |||
  ((g &&& FOREGROUND_MASK_SET) <<< 4) ||| ((g &&& BACKGROUND_MASK_SET) >>> 4)

/-- Modelled from the spec: the modifier-segment priority table exactly as
§4.5 states it, for comparison with the source's `getControlStateParameter`. -/
def modifierSegmentSpec (shift alt control : Bool) : List Char :=
  if shift && alt && control then [';', '8']
  else if alt && control then [';', '7']
  else if shift && control then [';', '6']
  else if control then [';', '5']
  else if shift && alt then [';', '4']
  else if alt then [';', '3']
  else if shift then [';', '2']
  else []

/-! ## C1 -/

/-- C1: for an SGR numeric value outside the translator's table (here `3`),
the attribute translator does NOT return an invalid-parameter error — it hits
the `default: panic("Should not reach here")` branch, so the whole `m`
command dispatch panics instead of reporting an error for that fold step. -/
theorem c1_unknown_sgr_value_panics :
    handleOutputCommand oracleAllOk ['3', 'm'] = GoResult.panicked := by
  rfl

/-! ## C2 -/

/-- C2: with a one-byte destination buffer and a single pending up-arrow
key-down event (whose encoding `ESC [ A` is three bytes), the `ReadChars`
event loop writes `p[0]` and then attempts `p[1]` — an index `≥ len(p)` —
because the capacity check only runs after a whole key string has been
written; the embedded loop reaches the Go index-out-of-range panic. -/
theorem c2_write_past_capacity_panics :
    readCharsLoop [upArrowKeyDown] 1 = GoResult.panicked := by
  rfl

/-! ## C4 -/

/-- C4 counterexample: at `bits = 0` the translator first widens the
never-set zero field to `0x000F`, so the double reverse returns `0x000F = 15`,
not the original `0`: reverse is not its own inverse on the zero bit-field. -/
theorem c4_zero_bits_counterexample :
    sgrReverseTwice 0 = GoResult.ok (15, none) ∧ (15 : Nat) ≠ 0 := by
  constructor
  · rfl
  · decide

/-- A constant below `2^k` has all bits at positions `≥ k` clear. -/
theorem testBit_false_of_lt_pow (c k j : Nat) (hc : c < 2 ^ k) (hkj : k ≤ j) :
    Nat.testBit c j = false :=
  Nat.testBit_lt_two_pow (lt_of_lt_of_le hc (Nat.pow_le_pow_right (by norm_num) hkj))

/-- The foreground/background swap is an involution on 16-bit fields. -/
theorem swapExpr_involution (f : Nat) (h : f < 65536) : swapExpr (swapExpr f) = f := by
  apply Nat.eq_of_testBit_eq
  intro i
  rcases Nat.lt_or_ge i 16 with hi | hi
  · interval_cases i <;>
      · simp only [swapExpr, FOREGROUND_MASK_SET, FOREGROUND_MASK_UNSET,
          BACKGROUND_MASK_SET, BACKGROUND_MASK_UNSET, Nat.testBit_or, Nat.testBit_and,
          Nat.testBit_shiftLeft, Nat.testBit_shiftRight]
        simp [Nat.testBit_to_div_mod]
  · simp only [swapExpr, FOREGROUND_MASK_SET, FOREGROUND_MASK_UNSET,
      BACKGROUND_MASK_SET, BACKGROUND_MASK_UNSET, Nat.testBit_or, Nat.testBit_and,
      Nat.testBit_shiftLeft, Nat.testBit_shiftRight]
    simp [testBit_false_of_lt_pow 65295 16 i (by norm_num) hi,
      testBit_false_of_lt_pow 65520 16 i (by norm_num) hi,
      testBit_false_of_lt_pow 15 4 (i - 4) (by norm_num) (by omega),
      testBit_false_of_lt_pow 240 8 (4 + i) (by norm_num) (by omega),
      testBit_false_of_lt_pow f 16 i h hi]

/-- On a nonzero flag the translator reverse-video case returns exactly the
foreground/background swap (no zero-widening happens). -/
theorem getW_seven (f : Nat) (hf : f ≠ 0) :
    getWindowsTextAttributeForAnsiValue f 7 = GoResult.ok (swapExpr f, none) := by
  have h : getWindowsTextAttributeForAnsiValue f 7 =
      GoResult.ok (swapExpr (if f = 0 then FOREGROUND_MASK_SET else f), none) := rfl
  rw [h, if_neg hf]

/-- C4 (amended): for every NONZERO 16-bit attribute bit-field, applying the
attribute translator twice with SGR value 7 returns the original bit-field;
`bits = 0` is the sole exception, because of the translator widening of a
zero field to `0x000F` before any rule is applied. -/
theorem c4_reverse_involution_nonzero :
    ∀ bits : Nat, bits < 65536 → bits ≠ 0 →
      sgrReverseTwice bits = GoResult.ok (bits, none) := by
  intro b hlt hne
  have hswap_ne : swapExpr b ≠ 0 := by
    intro h0
    have hinv := swapExpr_involution b hlt
    rw [h0] at hinv
    simp [swapExpr, FOREGROUND_MASK_SET, FOREGROUND_MASK_UNSET, BACKGROUND_MASK_SET,
      BACKGROUND_MASK_UNSET] at hinv
    exact hne hinv.symm
  unfold sgrReverseTwice
  rw [getW_seven b hne]
  show getWindowsTextAttributeForAnsiValue (swapExpr b) 7 = GoResult.ok (b, none)
  rw [getW_seven (swapExpr b) hswap_ne, swapExpr_involution b hlt]

/-- C4 witness: the amended involution applied at the concrete nonzero
bit-field `0x1234`. -/
theorem c4_reverse_involution_nonzero_witness :
    sgrReverseTwice 0x1234 = GoResult.ok (0x1234, none) :=
  c4_reverse_involution_nonzero 0x1234 (by decide) (by decide)

/-! ## C5 -/

/-- C5: SGR 30 (foreground black) is implemented with XOR, not mask-and-set:
starting from a bit-field whose foreground is red (bits `0100`), the
translator returns foreground `0011` (green and blue set) rather than leaving
all three colour bits clear, contradicting the claimed policy. -/
theorem c5_sgr30_xor_not_mask_and_set :
    getWindowsTextAttributeForAnsiValue FOREGROUND_RED 30 =
      GoResult.ok (FOREGROUND_GREEN ||| FOREGROUND_BLUE, none) ∧
    (FOREGROUND_GREEN ||| FOREGROUND_BLUE) &&&
      (FOREGROUND_RED ||| FOREGROUND_GREEN ||| FOREGROUND_BLUE) ≠ 0 := by
  constructor
  · rfl
  · decide

/-! ## C3 -/

/-- C3 counterexample: for the in-bounds same-row pair `from=(2,0)`, `to=(0,0)`
in an 80×25 buffer, `getNumberOfChars` returns `2^32 - 1`, not the claimed
`to.column - from.column + 1 = -1`: the same-row formula fails on backwards
ranges because the `int16` difference is converted to `uint32`. -/
theorem c3_backwards_same_row_counterexample :
    getNumberOfChars ⟨2, 0⟩ ⟨0, 0⟩ ⟨80, 25⟩ = 4294967295 ∧
    (4294967295 : Int) ≠ 0 - 2 + 1 := by
  constructor
  · rfl
  · decide

/-- C3 (amended): the zero cases are as claimed; the same-row formula
`to.column - from.column + 1` holds for in-bounds coordinates with
`from.column ≤ to.column` (an `int16`-sized buffer); the multi-row closed form
holds when the `int16` product `(to.row - from.row - 1) * bufferWidth` does
not overflow (is at most 32767); the width-80 example gives 96; and a valid
single-cell range counts 1. -/
theorem c3_count_cells_formulas :
    (∀ fromCoord toCoord screenSize : Coord,
       (fromCoord.x < 0 ∨ fromCoord.y < 0 ∨ toCoord.x < 0 ∨ toCoord.y < 0 ∨
        fromCoord.x ≥ screenSize.x ∨ fromCoord.y ≥ screenSize.y ∨
        toCoord.x ≥ screenSize.x ∨ toCoord.y ≥ screenSize.y ∨
        fromCoord.y > toCoord.y) →
       getNumberOfChars fromCoord toCoord screenSize = 0) ∧
    (∀ fromCoord toCoord screenSize : Coord,
       0 ≤ fromCoord.x → 0 ≤ fromCoord.y → 0 ≤ toCoord.x → 0 ≤ toCoord.y →
       fromCoord.x < screenSize.x → fromCoord.y < screenSize.y →
       toCoord.x < screenSize.x → toCoord.y < screenSize.y →
       screenSize.x ≤ 32767 →
       fromCoord.y = toCoord.y → fromCoord.x ≤ toCoord.x →
       getNumberOfChars fromCoord toCoord screenSize = toCoord.x - fromCoord.x + 1) ∧
    (∀ fromCoord toCoord screenSize : Coord,
       0 ≤ fromCoord.x → 0 ≤ fromCoord.y → 0 ≤ toCoord.x → 0 ≤ toCoord.y →
       fromCoord.x < screenSize.x → fromCoord.y < screenSize.y →
       toCoord.x < screenSize.x → toCoord.y < screenSize.y →
       screenSize.x ≤ 32767 → screenSize.y ≤ 32767 →
       fromCoord.y < toCoord.y →
       (toCoord.y - fromCoord.y - 1) * screenSize.x ≤ 32767 →
       getNumberOfChars fromCoord toCoord screenSize =
         (screenSize.x - fromCoord.x) + toCoord.x + 1 +
           (toCoord.y - fromCoord.y - 1) * screenSize.x) ∧
    getNumberOfChars ⟨70, 2⟩ ⟨5, 4⟩ ⟨80, 25⟩ = 96 ∧
    (∀ fromCoord screenSize : Coord,
       0 ≤ fromCoord.x → 0 ≤ fromCoord.y →
       fromCoord.x < screenSize.x → fromCoord.y < screenSize.y →
       screenSize.x ≤ 32767 →
       getNumberOfChars fromCoord fromCoord screenSize = 1) := by
  refine ⟨?_, ?_, ?_, by rfl, ?_⟩
  · intro f t s h
    unfold getNumberOfChars uint32wrap int16wrap
    split
    · rfl
    · split
      · rfl
      · split
        · rfl
        · split
          · exfalso; omega
          · split
            · exfalso; omega
            · rfl
  · intro f t s h1 h2 h3 h4 h5 h6 h7 h8 h9 hyeq hxle
    unfold getNumberOfChars uint32wrap int16wrap
    rw [if_neg (by omega), if_neg (by omega), if_neg (by omega), if_pos hyeq]
    omega
  · intro f t s h1 h2 h3 h4 h5 h6 h7 h8 h9 h10 hlt hprod
    have hp0 : 0 ≤ (t.y - f.y - 1) * s.x := mul_nonneg (by omega) (by omega)
    unfold getNumberOfChars uint32wrap int16wrap
    rw [if_neg (by omega), if_neg (by omega), if_neg (by omega),
        if_neg (by omega), if_pos hlt]
    by_cases hl : 0 < t.y - f.y - 1
    · rw [if_pos (by omega)]
      have hw : (t.y - f.y - 1 + 32768) % 65536 - 32768 = t.y - f.y - 1 := by omega
      rw [hw]
      generalize (t.y - f.y - 1) * s.x = p at *
      omega
    · rw [if_neg (by omega)]
      have h0 : t.y - f.y - 1 = 0 := by omega
      rw [h0, zero_mul]
      omega
  · intro f s h1 h2 h3 h4 h5
    unfold getNumberOfChars uint32wrap int16wrap
    rw [if_neg (by omega), if_neg (by omega), if_neg (by omega), if_pos rfl]
    omega

/-- C3 witness: the amended theorem applied at the spec's own concrete
examples — a same-row range, the width-80 multi-row example, and a
single-cell range. -/
theorem c3_count_cells_formulas_witness :
    getNumberOfChars ⟨2, 0⟩ ⟨5, 0⟩ ⟨80, 25⟩ = 5 - 2 + 1 ∧
    getNumberOfChars ⟨70, 2⟩ ⟨5, 4⟩ ⟨80, 25⟩ =
      (80 - 70) + 5 + 1 + (4 - 2 - 1) * 80 ∧
    getNumberOfChars ⟨7, 3⟩ ⟨7, 3⟩ ⟨80, 25⟩ = 1 :=
  ⟨c3_count_cells_formulas.2.1 ⟨2, 0⟩ ⟨5, 0⟩ ⟨80, 25⟩ (by decide) (by decide) (by decide)
     (by decide) (by decide) (by decide) (by decide) (by decide) (by decide) (by decide)
     (by decide),
   c3_count_cells_formulas.2.2.1 ⟨70, 2⟩ ⟨5, 4⟩ ⟨80, 25⟩ (by decide) (by decide) (by decide)
     (by decide) (by decide) (by decide) (by decide) (by decide) (by decide) (by decide)
     (by decide) (by decide),
   c3_count_cells_formulas.2.2.2.2 ⟨7, 3⟩ ⟨80, 25⟩ (by decide) (by decide) (by decide)
     (by decide) (by decide)⟩

/-! ## C10 -/

/-- C10 counterexample: the claim quantifies over every in-bounds same-row
pair with `from.column > to.column`, asserting the result is never 0; but for
`from=(1,0)`, `to=(0,0)` the `uint32` sum `uint32(-1) + 1` wraps to exactly 0,
so `getNumberOfChars` does return 0. -/
theorem c10_adjacent_backwards_returns_zero :
    getNumberOfChars ⟨1, 0⟩ ⟨0, 0⟩ ⟨80, 25⟩ = 0 := by
  rfl

/-- C10 (amended): for in-bounds same-row coordinates with
`from.column ≥ to.column + 2`, `getNumberOfChars` returns the wrapped count
`2^32 - (from.column - to.column) + 1`, which is nonzero (and vastly larger
than any `int16`-sized buffer), and `clearDisplayRange` passes exactly that
count to the native fill call; in the remaining backwards case
`from.column = to.column + 1` the `uint32` addition wraps to exactly 0. -/
theorem c10_backwards_same_row_wraps :
    (∀ fromCoord toCoord screenSize : Coord,
       0 ≤ toCoord.x → 0 ≤ fromCoord.y → 0 ≤ toCoord.y →
       fromCoord.x < screenSize.x → fromCoord.y < screenSize.y →
       toCoord.x < screenSize.x → toCoord.y < screenSize.y →
       screenSize.x ≤ 32767 →
       fromCoord.y = toCoord.y → toCoord.x + 1 < fromCoord.x →
       getNumberOfChars fromCoord toCoord screenSize =
         4294967296 - (fromCoord.x - toCoord.x) + 1 ∧
       getNumberOfChars fromCoord toCoord screenSize ≠ 0 ∧
       (∀ o : ConsoleOracle, ∀ fillChar : Char,
          (clearDisplayRange o fillChar fromCoord toCoord screenSize).2 =
            [NativeCall.fillOutputCharacter fillChar
               (4294967296 - (fromCoord.x - toCoord.x) + 1) fromCoord])) ∧
    (∀ fromCoord toCoord screenSize : Coord,
       0 ≤ toCoord.x → 0 ≤ fromCoord.y → 0 ≤ toCoord.y →
       fromCoord.x < screenSize.x → fromCoord.y < screenSize.y →
       toCoord.x < screenSize.x → toCoord.y < screenSize.y →
       screenSize.x ≤ 32767 →
       fromCoord.y = toCoord.y → fromCoord.x = toCoord.x + 1 →
       getNumberOfChars fromCoord toCoord screenSize = 0) := by
  constructor
  · intro f t s h1 h2 h3 h4 h5 h6 h7 h8 hyeq hgt
    have hval : getNumberOfChars f t s = 4294967296 - (f.x - t.x) + 1 := by
      unfold getNumberOfChars uint32wrap int16wrap
      rw [if_neg (by omega), if_neg (by omega), if_neg (by omega), if_pos hyeq]
      omega
    refine ⟨hval, by omega, ?_⟩
    intro o fillChar
    unfold clearDisplayRange
    rw [hval, if_pos (by omega)]
    unfold fillConsoleOutputCharacter
    split <;> simp_all
  · intro f t s h1 h2 h3 h4 h5 h6 h7 h8 hyeq heq
    unfold getNumberOfChars uint32wrap int16wrap
    rw [if_neg (by omega), if_neg (by omega), if_neg (by omega), if_pos hyeq]
    omega

/-- C10 witness: the amended theorem applied at `from=(5,0)`, `to=(2,0)` in an
80×25 buffer (count `2^32 - 3 + 1 = 4294967294`) and at the adjacent pair
`from=(3,0)`, `to=(2,0)` (count wraps to 0). -/
theorem c10_backwards_same_row_wraps_witness :
    (getNumberOfChars ⟨5, 0⟩ ⟨2, 0⟩ ⟨80, 25⟩ = 4294967296 - (5 - 2) + 1 ∧
     getNumberOfChars ⟨5, 0⟩ ⟨2, 0⟩ ⟨80, 25⟩ ≠ 0 ∧
     (∀ o : ConsoleOracle, ∀ fillChar : Char,
        (clearDisplayRange o fillChar ⟨5, 0⟩ ⟨2, 0⟩ ⟨80, 25⟩).2 =
          [NativeCall.fillOutputCharacter fillChar (4294967296 - (5 - 2) + 1) ⟨5, 0⟩])) ∧
    getNumberOfChars ⟨3, 0⟩ ⟨2, 0⟩ ⟨80, 25⟩ = 0 :=
  ⟨c10_backwards_same_row_wraps.1 ⟨5, 0⟩ ⟨2, 0⟩ ⟨80, 25⟩ (by decide) (by decide) (by decide)
     (by decide) (by decide) (by decide) (by decide) (by decide) (by decide) (by decide),
   c10_backwards_same_row_wraps.2 ⟨3, 0⟩ ⟨2, 0⟩ ⟨80, 25⟩ (by decide) (by decide) (by decide)
     (by decide) (by decide) (by decide) (by decide) (by decide) (by decide) (by decide)⟩

/-! ## C6 -/

/-- C6 counterexample: with a console whose snapshot call fails with OS error
5, the `J` branch does not surface the failure: the dispatcher silently skips
the branch and returns a nil error, contradicting the claim that the snapshot
fetch failure is returned to the caller. -/
theorem c6_snapshot_failure_swallowed :
    handleOutputCommand oracleSnapshotFails ['J'] =
      GoResult.ok (1, none, [NativeCall.getScreenBufferInfo]) ∧
    (none : Option Err) ≠ some (Err.os 5) := by
  constructor
  · rfl
  · decide

/-- C6 (amended): the `m` branch and every cursor-move branch (`H`/`f` and
`A`–`D`) treat a zero result from their native call as failure and return the
OS error (or the generic invalid-argument error when the OS reported none,
built by `errOf`); within both `J` and `K`, the fill call's failure and the
cursor-positioning call's failure are propagated likewise; but the `h`/`l`
cursor-visibility branches ignore the result of `SetCursorVisible` entirely,
and a failed snapshot fetch makes `J`/`K` silently skip the whole branch and
report success. -/
theorem c6_native_call_failure_policy :
    (∀ (o : ConsoleOracle) (e : Option Nat), o.setTextAttributeCall = (0, e) →
       handleOutputCommand o ['0', 'm'] =
         GoResult.ok (2, some (errOf e), [NativeCall.setTextAttribute 15])) ∧
    (∀ (o : ConsoleOracle) (e : Option Nat),
       o.getScreenBufferInfoCall = (1, none) → o.setCursorPositionCall = (0, e) →
       handleOutputCommand o ['H'] =
         GoResult.ok (1, some (errOf e),
           [NativeCall.getScreenBufferInfo, NativeCall.setCursorPosition ⟨0, 0⟩]) ∧
       handleOutputCommand o ['f'] =
         GoResult.ok (1, some (errOf e),
           [NativeCall.getScreenBufferInfo, NativeCall.setCursorPosition ⟨0, 0⟩])) ∧
    (∀ (o : ConsoleOracle) (e : Option Nat),
       o.getScreenBufferInfoCall = (1, none) → o.screenInfo = stdInfo →
       o.setCursorPositionCall = (0, e) →
       handleOutputCommand o ['A'] =
         GoResult.ok (1, some (errOf e),
           [NativeCall.getScreenBufferInfo, NativeCall.setCursorPosition ⟨10, 4⟩]) ∧
       handleOutputCommand o ['B'] =
         GoResult.ok (1, some (errOf e),
           [NativeCall.getScreenBufferInfo, NativeCall.setCursorPosition ⟨10, 6⟩]) ∧
       handleOutputCommand o ['C'] =
         GoResult.ok (1, some (errOf e),
           [NativeCall.getScreenBufferInfo, NativeCall.setCursorPosition ⟨11, 5⟩]) ∧
       handleOutputCommand o ['D'] =
         GoResult.ok (1, some (errOf e),
           [NativeCall.getScreenBufferInfo, NativeCall.setCursorPosition ⟨9, 5⟩])) ∧
    (∀ o : ConsoleOracle,
       handleOutputCommand o ['?', '2', '5', 'l'] =
         GoResult.ok (4, none, (SetCursorVisible o 0).2) ∧
       handleOutputCommand o ['?', '2', '5', 'h'] =
         GoResult.ok (4, none, (SetCursorVisible o 1).2)) ∧
    (∀ (o : ConsoleOracle) (e : Option Nat), o.getScreenBufferInfoCall = (0, e) →
       handleOutputCommand o ['J'] =
         GoResult.ok (1, none, [NativeCall.getScreenBufferInfo]) ∧
       handleOutputCommand o ['K'] =
         GoResult.ok (1, none, [NativeCall.getScreenBufferInfo])) ∧
    (∀ c : Nat,
       handleOutputCommand (oracleFillFails c) ['J'] =
         GoResult.ok (1, some (Err.os c),
           [NativeCall.getScreenBufferInfo,
            NativeCall.fillOutputCharacter ' ' 1590 ⟨10, 5⟩]) ∧
       handleOutputCommand (oracleFillFails c) ['K'] =
         GoResult.ok (1, some (Err.os c),
           [NativeCall.getScreenBufferInfo,
            NativeCall.fillOutputCharacter ' ' 70 ⟨10, 5⟩])) ∧
    (∀ (o : ConsoleOracle) (e : Option Nat),
       o.getScreenBufferInfoCall = (1, none) → o.screenInfo = stdInfo →
       o.fillCall = (1, none) → o.setCursorPositionCall = (0, e) →
       handleOutputCommand o ['J'] =
         GoResult.ok (1, some (errOf e),
           [NativeCall.getScreenBufferInfo,
            NativeCall.fillOutputCharacter ' ' 1590 ⟨10, 5⟩,
            NativeCall.getScreenBufferInfo, NativeCall.setCursorPosition ⟨10, 5⟩]) ∧
       handleOutputCommand o ['K'] =
         GoResult.ok (1, some (errOf e),
           [NativeCall.getScreenBufferInfo,
            NativeCall.fillOutputCharacter ' ' 70 ⟨10, 5⟩,
            NativeCall.getScreenBufferInfo, NativeCall.setCursorPosition ⟨10, 5⟩])) := by
  refine ⟨?_, ?_, ?_, ?_, ?_, ?_, ?_⟩
  · intro o e h
    obtain ⟨g, si, scp, sta, fc, gci, sci⟩ := o
    simp only at h
    subst h
    rfl
  · intro o e h1 h2
    obtain ⟨g, si, scp, sta, fc, gci, sci⟩ := o
    simp only at h1 h2
    subst h1
    subst h2
    exact ⟨rfl, rfl⟩
  · intro o e h1 h2 h3
    obtain ⟨g, si, scp, sta, fc, gci, sci⟩ := o
    simp only at h1 h2 h3
    subst h1
    subst h2
    subst h3
    exact ⟨rfl, rfl, rfl, rfl⟩
  · intro o
    exact ⟨rfl, rfl⟩
  · intro o e h
    obtain ⟨g, si, scp, sta, fc, gci, sci⟩ := o
    simp only at h
    subst h
    exact ⟨rfl, rfl⟩
  · intro c
    exact ⟨rfl, rfl⟩
  · intro o e h1 h2 h3 h4
    obtain ⟨g, si, scp, sta, fc, gci, sci⟩ := o
    simp only at h1 h2 h3 h4
    subst h1
    subst h2
    subst h3
    subst h4
    exact ⟨rfl, rfl⟩

/-- C6 witness: the amended policy applied at concrete consoles — an
attribute-set failure with no OS error surfaces `EINVAL`, a snapshot failure
on `K` is swallowed, a cursor-position failure on `A` surfaces OS error 9,
and a cursor-position failure inside `K` surfaces OS error 11 after the
fill. -/
theorem c6_native_call_failure_policy_witness :
    handleOutputCommand oracleAttrFails ['0', 'm'] =
      GoResult.ok (2, some (errOf none), [NativeCall.setTextAttribute 15]) ∧
    handleOutputCommand oracleSnapshotFails ['K'] =
      GoResult.ok (1, none, [NativeCall.getScreenBufferInfo]) ∧
    handleOutputCommand (oracleCursorPosFails (some 9)) ['A'] =
      GoResult.ok (1, some (errOf (some 9)),
        [NativeCall.getScreenBufferInfo, NativeCall.setCursorPosition ⟨10, 4⟩]) ∧
    handleOutputCommand (oracleCursorPosFails (some 11)) ['K'] =
      GoResult.ok (1, some (errOf (some 11)),
        [NativeCall.getScreenBufferInfo,
         NativeCall.fillOutputCharacter ' ' 70 ⟨10, 5⟩,
         NativeCall.getScreenBufferInfo, NativeCall.setCursorPosition ⟨10, 5⟩]) :=
  ⟨c6_native_call_failure_policy.1 oracleAttrFails none rfl,
   (c6_native_call_failure_policy.2.2.2.2.1 oracleSnapshotFails (some 5) rfl).2,
   (c6_native_call_failure_policy.2.2.1 (oracleCursorPosFails (some 9)) (some 9)
      rfl rfl rfl).1,
   (c6_native_call_failure_policy.2.2.2.2.2.2 (oracleCursorPosFails (some 11)) (some 11)
      rfl rfl rfl rfl).2⟩

/-! ## C7 -/

/-- Every branch helper either panics or returns `len` as bytes consumed. -/
theorem sgrBranch_len (o : ConsoleOracle) (ps : List (List Char)) (len : Nat) :
    sgrBranch o ps len = GoResult.panicked ∨
    ∃ e tr, sgrBranch o ps len = GoResult.ok (len, e, tr) := by
  unfold sgrBranch
  repeat split
  all_goals (try split_ifs)
  all_goals first
    | exact Or.inl rfl
    | exact Or.inr ⟨_, _, rfl⟩

theorem cursorMoveBranch_len (o : ConsoleOracle) (r : Bool) (c l : Int) (len : Nat) :
    cursorMoveBranch o r c l len = GoResult.panicked ∨
    ∃ e tr, cursorMoveBranch o r c l len = GoResult.ok (len, e, tr) := by
  unfold cursorMoveBranch
  split_ifs
  all_goals first
    | exact Or.inl rfl
    | exact Or.inr ⟨_, _, rfl⟩

theorem hfBranch_len (o : ConsoleOracle) (pc : ParsedCommand) (len : Nat) :
    hfBranch o pc len = GoResult.panicked ∨
    ∃ e tr, hfBranch o pc len = GoResult.ok (len, e, tr) := by
  unfold hfBranch
  split_ifs
  all_goals first
    | exact Or.inl rfl
    | exact Or.inr ⟨_, _, rfl⟩
    | apply cursorMoveBranch_len

theorem aBranch_len (o : ConsoleOracle) (pc : ParsedCommand) (len : Nat) :
    aBranch o pc len = GoResult.panicked ∨
    ∃ e tr, aBranch o pc len = GoResult.ok (len, e, tr) := by
  unfold aBranch
  split_ifs
  all_goals first
    | exact Or.inl rfl
    | exact Or.inr ⟨_, _, rfl⟩
    | apply cursorMoveBranch_len

theorem bBranch_len (o : ConsoleOracle) (pc : ParsedCommand) (len : Nat) :
    bBranch o pc len = GoResult.panicked ∨
    ∃ e tr, bBranch o pc len = GoResult.ok (len, e, tr) := by
  unfold bBranch
  split_ifs
  all_goals first
    | exact Or.inl rfl
    | exact Or.inr ⟨_, _, rfl⟩
    | apply cursorMoveBranch_len

theorem cBranch_len (o : ConsoleOracle) (pc : ParsedCommand) (len : Nat) :
    cBranch o pc len = GoResult.panicked ∨
    ∃ e tr, cBranch o pc len = GoResult.ok (len, e, tr) := by
  unfold cBranch
  split_ifs
  all_goals first
    | exact Or.inl rfl
    | exact Or.inr ⟨_, _, rfl⟩
    | apply cursorMoveBranch_len

theorem dBranch_len (o : ConsoleOracle) (pc : ParsedCommand) (len : Nat) :
    dBranch o pc len = GoResult.panicked ∨
    ∃ e tr, dBranch o pc len = GoResult.ok (len, e, tr) := by
  unfold dBranch
  split_ifs
  all_goals first
    | exact Or.inl rfl
    | exact Or.inr ⟨_, _, rfl⟩
    | apply cursorMoveBranch_len

theorem eraseApply_len (o : ConsoleOracle) (r : Coord × Coord × Coord) (w : Coord)
    (tr1 : List NativeCall) (len : Nat) :
    eraseApply o r w tr1 len = GoResult.panicked ∨
    ∃ e tr, eraseApply o r w tr1 len = GoResult.ok (len, e, tr) := by
  unfold eraseApply
  split_ifs
  all_goals first
    | exact Or.inl rfl
    | exact Or.inr ⟨_, _, rfl⟩

theorem jBranch_len (o : ConsoleOracle) (pc : ParsedCommand) (len : Nat) :
    jBranch o pc len = GoResult.panicked ∨
    ∃ e tr, jBranch o pc len = GoResult.ok (len, e, tr) := by
  unfold jBranch
  split_ifs
  all_goals (repeat split)
  all_goals first
    | exact Or.inl rfl
    | exact Or.inr ⟨_, _, rfl⟩
    | apply eraseApply_len

theorem kBranch_len (o : ConsoleOracle) (pc : ParsedCommand) (len : Nat) :
    kBranch o pc len = GoResult.panicked ∨
    ∃ e tr, kBranch o pc len = GoResult.ok (len, e, tr) := by
  unfold kBranch
  repeat split
  all_goals first
    | exact Or.inl rfl
    | exact Or.inr ⟨_, _, rfl⟩
    | apply eraseApply_len

theorem lhBranch_len (o : ConsoleOracle) (pc : ParsedCommand) (v : Int) (len : Nat) :
    lhBranch o pc v len = GoResult.panicked ∨
    ∃ e tr, lhBranch o pc v len = GoResult.ok (len, e, tr) := by
  unfold lhBranch
  split_ifs
  all_goals first
    | exact Or.inl rfl
    | exact Or.inr ⟨_, _, rfl⟩

/-- The dispatcher either panics or consumes exactly the command's length. -/
theorem handle_len (o : ConsoleOracle) (cmd : List Char) :
    handleOutputCommand o cmd = GoResult.panicked ∨
    ∃ e tr, handleOutputCommand o cmd = GoResult.ok (cmd.length, e, tr) := by
  unfold handleOutputCommand
  by_cases h1 : (parseAnsiCommand cmd).Command = ['m']
  · rw [if_pos h1]; apply sgrBranch_len
  rw [if_neg h1]
  by_cases h2 : (parseAnsiCommand cmd).Command = ['H'] ∨ (parseAnsiCommand cmd).Command = ['f']
  · rw [if_pos h2]; apply hfBranch_len
  rw [if_neg h2]
  by_cases h3 : (parseAnsiCommand cmd).Command = ['A']
  · rw [if_pos h3]; apply aBranch_len
  rw [if_neg h3]
  by_cases h4 : (parseAnsiCommand cmd).Command = ['B']
  · rw [if_pos h4]; apply bBranch_len
  rw [if_neg h4]
  by_cases h5 : (parseAnsiCommand cmd).Command = ['C']
  · rw [if_pos h5]; apply cBranch_len
  rw [if_neg h5]
  by_cases h6 : (parseAnsiCommand cmd).Command = ['D']
  · rw [if_pos h6]; apply dBranch_len
  rw [if_neg h6]
  by_cases h7 : (parseAnsiCommand cmd).Command = ['J']
  · rw [if_pos h7]; apply jBranch_len
  rw [if_neg h7]
  by_cases h8 : (parseAnsiCommand cmd).Command = ['K']
  · rw [if_pos h8]; apply kBranch_len
  rw [if_neg h8]
  by_cases h9 : (parseAnsiCommand cmd).Command = ['l']
  · rw [if_pos h9]; apply lhBranch_len
  rw [if_neg h9]
  by_cases h10 : (parseAnsiCommand cmd).Command = ['h']
  · rw [if_pos h10]; apply lhBranch_len
  rw [if_neg h10]
  exact Or.inr ⟨_, _, rfl⟩

/-- C7: whenever the dispatcher returns (does not panic), the bytes-consumed
count equals the full length of the command bytes, on success and on every
failure path alike, so a failed command never desynchronizes the caller's
stream position. -/
theorem c7_bytes_consumed_eq_length :
    ∀ (o : ConsoleOracle) (cmd : List Char) (n : Nat) (e : Option Err) (tr : List NativeCall),
      handleOutputCommand o cmd = GoResult.ok (n, e, tr) → n = cmd.length := by
  intro o cmd n e tr h
  rcases handle_len o cmd with hp | ⟨e2, tr2, heq⟩
  · rw [h] at hp
    exact absurd hp (by simp)
  · rw [h] at heq
    simp only [GoResult.ok.injEq, Prod.mk.injEq] at heq
    exact heq.1

/-- C7 witness: the theorem applied at a concrete failed command — `H` with a
failing cursor-position call still consumes all 1 byte. -/
theorem c7_bytes_consumed_eq_length_witness :
    (1 : Nat) = (['H'] : List Char).length :=
  c7_bytes_consumed_eq_length
    ⟨(1, none), ⟨⟨80, 25⟩, ⟨10, 5⟩, 7, ⟨80, 25⟩⟩, (0, some 3), (1, none), (1, none),
     (1, none), (1, none)⟩
    ['H'] 1 (some (Err.os 3))
    [NativeCall.getScreenBufferInfo, NativeCall.setCursorPosition ⟨0, 0⟩] (by rfl)

/-! ## C8 -/

/-- C8: for every snapshot (with `int16`-ranged, nonnegative window
dimensions), the `K` branch with parameter 2 computes the clear range
`start=(0, maxH-1)`, `end=(width-1, maxH-1)` and the cursor target
`(0, maxH-1)` — the row taken from the snapshot's maximum-window height, not
the cursor's row; and on an all-success 80×25 console the dispatcher then
fills that row and positions the cursor at `(0, 24)`. -/
theorem c8_erase_line_2_uses_window_bottom_row :
    (∀ info : ScreenBufferInfo,
       0 ≤ info.MaximumWindowSize.x → info.MaximumWindowSize.x ≤ 32767 →
       0 ≤ info.MaximumWindowSize.y → info.MaximumWindowSize.y ≤ 32767 →
       eraseLineRanges 2 info =
         (⟨0, info.MaximumWindowSize.y - 1⟩,
          ⟨info.MaximumWindowSize.x - 1, info.MaximumWindowSize.y - 1⟩,
          ⟨0, info.MaximumWindowSize.y - 1⟩)) ∧
    handleOutputCommand oracleAllOk ['2', 'K'] =
      GoResult.ok (2, none,
        [NativeCall.getScreenBufferInfo,
         NativeCall.fillOutputCharacter ' ' 80 ⟨0, 24⟩,
         NativeCall.getScreenBufferInfo,
         NativeCall.setCursorPosition ⟨0, 24⟩]) := by
  constructor
  · intro info h1 h2 h3 h4
    have hred : eraseLineRanges 2 info =
        (⟨0, int16wrap (info.MaximumWindowSize.y - 1)⟩,
         ⟨int16wrap (info.MaximumWindowSize.x - 1), int16wrap (info.MaximumWindowSize.y - 1)⟩,
         ⟨0, int16wrap (info.MaximumWindowSize.y - 1)⟩) := rfl
    rw [hred]
    unfold int16wrap
    simp only [Prod.mk.injEq, Coord.mk.injEq, true_and]
    omega
  · rfl

/-- C8 witness: the range computation applied at a concrete 80×25 snapshot
whose cursor sits at row 5 — the computed row is 24, not 5. -/
theorem c8_erase_line_2_uses_window_bottom_row_witness :
    eraseLineRanges 2 ⟨⟨80, 25⟩, ⟨10, 5⟩, 7, ⟨80, 25⟩⟩ = (⟨0, 24⟩, ⟨79, 24⟩, ⟨0, 24⟩) :=
  c8_erase_line_2_uses_window_bottom_row.1 ⟨⟨80, 25⟩, ⟨10, 5⟩, 7, ⟨80, 25⟩⟩
    (by decide) (by decide) (by decide) (by decide)

/-! ## C9 -/

/-- C9 counterexample: up-arrow with Control held encodes to the five bytes
`ESC [ ; 5 A` — the modifier segment `;5` is substituted into the template
with its leading semicolon — not to the claimed four bytes `ESC [ 5 A`. -/
theorem c9_ctrl_up_arrow_keeps_semicolon :
    charSequenceForKeys VK_UP LEFT_CTRL_PRESSED ≠ ['\x1b', '[', '5', 'A'] ∧
    charSequenceForKeys VK_UP LEFT_CTRL_PRESSED = ['\x1b', '[', ';', '5', 'A'] := by
  constructor
  · decide
  · rfl

/-- C9 (amended): the modifier segment follows exactly the spec's priority
table (one of `;2`..`;8`, empty when no modifier is held); up-arrow with no
modifiers encodes to `ESC [ A` (the empty segment omitted entirely), and
up-arrow with Control held encodes to `ESC [ ; 5 A` — the `;5` segment is
inserted verbatim, semicolon included. -/
theorem c9_modifier_priority_and_up_arrow :
    (∀ shift alt control : Bool,
       getControlStateParameter shift alt control false =
         modifierSegmentSpec shift alt control) ∧
    charSequenceForKeys VK_UP 0 = ['\x1b', '[', 'A'] ∧
    charSequenceForKeys VK_UP LEFT_CTRL_PRESSED = ['\x1b', '[', ';', '5', 'A'] := by
  refine ⟨?_, rfl, rfl⟩
  intro shift alt control
  cases shift <;> cases alt <;> cases control <;> rfl

end ConsoleWindows
